import Mathlib

/-!
Verification of the `git-ai-commit` workflow (src/src/git_autocommit/cli.py).

The shallow embedding models:
* `get_git_status` (here `capture`): four git queries run in order with
  `check=True`; the first non-zero exit aborts with a `CalledProcessError`,
  otherwise the four captured stdouts are returned `.strip()`-ped.
* the `commit` command (here `runCommit`): the staging decision flow, the
  prompt construction of `generate_commit_message` and the final
  confirmation / `git commit -m` invocation.

External nondeterminism (results of successive git queries, the operator's
yes/no answers, success of staging subprocesses, the chat-backend reply and
the success of `git commit`) is supplied by an oracle environment `Env`;
`runCommit` returns a `Trace` recording the outcome together with every
confirmation asked, every staging command run, the arguments handed to
`generate_commit_message`, the user prompt sent to the backend and the
message passed to `git commit -m`.
-/

/-- Result of one external git query process (`subprocess.run` with
`capture_output=True, text=True`): exit status, stdout and stderr. -/
structure RawQuery where
  ok : Bool
  exitCode : Nat
  stdout : String
  stderr : String
  deriving Repr, DecidableEq

/-- The raw results the four queries of `get_git_status` would produce
at one capture point. -/
structure CaptureRaw where
  status : RawQuery
  stagedDiff : RawQuery
  unstagedDiff : RawQuery
  untracked : RawQuery
  deriving Repr, DecidableEq

/-- Python's `subprocess.CalledProcessError` as raised by `check=True`
with `capture_output=True`: the failed command, its exit status and the
captured stdout/stderr. -/
structure CmdFailure where
  cmd : List String
  code : Nat
  stdout : String
  stderr : String
  deriving Repr, DecidableEq

/-- The tuple returned by `get_git_status`: the four stdouts, stripped. -/
structure Snapshot where
  status : String
  diff : String
  unstaged : String
  untracked : String
  deriving Repr, DecidableEq

/-- ASCII whitespace as recognised by Python's `str.strip()` /
`str.isspace()`: space, tab, newline, carriage return, vertical tab,
form feed. -/
def pyIsSpace (c : Char) : Bool :=
  c = ' ' || c = '\t' || c = '\n' || c = '\r' || c = Char.ofNat 11 || c = Char.ofNat 12

/-- Python's `str.strip()`: drop leading and trailing whitespace. -/
def pyStrip (s : String) : String :=
  String.mk (((s.toList.dropWhile pyIsSpace).reverse.dropWhile pyIsSpace).reverse)

/-- Python's `repr` of a list of strings, as produced by `"%s" % cmd`
in `CalledProcessError.__str__` (commands here contain no quotes). -/
def pyListRepr (xs : List String) : String :=
  "[" ++ String.intercalate ", " (xs.map (fun x => "'" ++ x ++ "'")) ++ "]"

/-- `str(CalledProcessError)` for a non-negative exit status:
`Command '<cmd>' returned non-zero exit status <code>.` — note it does not
include the captured stderr. -/
def cpeStr (e : CmdFailure) : String :=
  "Command '" ++ pyListRepr e.cmd ++ "' returned non-zero exit status "
    ++ toString e.code ++ "."

/-- The error text printed by `get_git_status` on a failed query:
`f"Git command failed: {e}"`. -/
def gitFailMsg (e : CmdFailure) : String :=
  "Git command failed: " ++ cpeStr e

/-- `get_git_status`: run the four queries in order; the first non-zero
exit raises `CalledProcessError` (fail-fast, later queries unused);
on success return the four stdouts `.strip()`-ped. -/
def capture (c : CaptureRaw) : Except CmdFailure Snapshot :=
  if c.status.ok = false then
    .error ⟨["git", "status", "--porcelain"], c.status.exitCode,
            c.status.stdout, c.status.stderr⟩
  else if c.stagedDiff.ok = false then
    .error ⟨["git", "diff", "--staged"], c.stagedDiff.exitCode,
            c.stagedDiff.stdout, c.stagedDiff.stderr⟩
  else if c.unstagedDiff.ok = false then
    .error ⟨["git", "diff"], c.unstagedDiff.exitCode,
            c.unstagedDiff.stdout, c.unstagedDiff.stderr⟩
  else if c.untracked.ok = false then
    .error ⟨["git", "ls-files", "--others", "--exclude-standard"],
            c.untracked.exitCode, c.untracked.stdout, c.untracked.stderr⟩
  else
    .ok ⟨pyStrip c.status.stdout, pyStrip c.stagedDiff.stdout,
         pyStrip c.unstagedDiff.stdout, pyStrip c.untracked.stdout⟩

/-- A chat-backend reply; `generate_commit_message` returns `response.content`. -/
structure ChatResponse where
  content : String
  deriving Repr, DecidableEq

/-- Oracle environment supplying all external nondeterminism of one run of
the `commit` command: the raw git state at the k-th `get_git_status` call,
the operator's k-th `Confirm.ask` answer, whether the k-th staging
subprocess succeeds, the backend reply (`none` = the API call raises) and
whether `git commit` succeeds. -/
structure Env where
  captures : Nat → CaptureRaw
  answers : Nat → Bool
  stageResults : Nat → Bool
  backend : Option ChatResponse
  commitOk : Bool

/-- Terminal outcome of one run of the `commit` command. -/
inductive Outcome where
  /-- a git query failed: `get_git_status` printed `msg` and raised `typer.Exit(1)` -/
  | gitQueryFailed (msg : String)
  /-- empty status: `"No changes to commit."`, `typer.Exit()` -/
  | noChanges
  /-- a required staging proposal declined: `typer.Exit()` -/
  | requiredStagingDeclined
  /-- a required staging subprocess failed: `typer.Exit(1)` -/
  | requiredStagingFailed
  /-- staged diff still empty after a required staging action: `typer.Exit()` -/
  | stillNothingStaged
  /-- the chat-backend call raised; the exception propagates uncaught -/
  | backendError
  /-- final confirmation declined: `"Autocommit cancelled."`, `typer.Exit()` -/
  | commitDeclined
  /-- `git commit` exited non-zero: `typer.Exit(1)` -/
  | commitFailed
  /-- `git commit` succeeded -/
  | committed
  deriving Repr, DecidableEq

/-- Process exit status of each outcome (`typer.Exit()` is 0,
`typer.Exit(1)` is 1, an uncaught exception makes Python exit 1). -/
def Outcome.exitCode : Outcome → Nat
  | .gitQueryFailed _ => 1
  | .noChanges => 0
  | .requiredStagingDeclined => 0
  | .requiredStagingFailed => 1
  | .stillNothingStaged => 0
  | .backendError => 1
  | .commitDeclined => 0
  | .commitFailed => 1
  | .committed => 0

/-- Observable trace of one run of the `commit` command. -/
structure Trace where
  outcome : Outcome
  /-- texts of the `Confirm.ask` prompts, in order -/
  confirms : List String
  /-- staging subprocess commands actually run, in order -/
  stagingRuns : List (List String)
  /-- the `(status_output, diff_output)` arguments passed to
  `generate_commit_message`, when it was called -/
  genInput : Option (String × String)
  /-- the user prompt submitted to the chat backend, when it was -/
  backendPrompt : Option String
  /-- the `response.content` returned by the backend, when it returned -/
  generated : Option String
  /-- the message passed to `git commit -m`, when commit was invoked -/
  commitMsg : Option String
  deriving Repr, DecidableEq

/-- A trace that never reached generation. -/
def mkTrace (confirms : List String) (runs : List (List String))
    (o : Outcome) : Trace :=
  { outcome := o, confirms := confirms, stagingRuns := runs,
    genInput := none, backendPrompt := none, generated := none,
    commitMsg := none }

/-- `"There are untracked files. Do you want to add all files (git add .)?"` -/
def untrackedRequiredText : String :=
  "There are untracked files. Do you want to add all files (git add .)?"

/-- `"Do you want to stage modified files (git add -u)?"` -/
def modifiedRequiredText : String :=
  "Do you want to stage modified files (git add -u)?"

/-- `"There are untracked files. Do you want to add them too (git add .)?"` -/
def untrackedOptionalText : String :=
  "There are untracked files. Do you want to add them too (git add .)?"

/-- `"There are unstaged changes. Do you want to stage modified files (git add -u)?"` -/
def unstagedOptionalText : String :=
  "There are unstaged changes. Do you want to stage modified files (git add -u)?"

/-- `"Do you want to commit with this message?"` -/
def commitConfirmText : String :=
  "Do you want to commit with this message?"

/-- The user prompt of `generate_commit_message`:
`prompt.format(status_output=..., diff_output=...)`. -/
def promptFor (statusOutput diffOutput : String) : String :=
  "`git status`:\n```\n\n" ++ statusOutput
    ++ "\n```\n\n`git diff --staged`:\n\n```\n" ++ diffOutput
    ++ "\n```\n\nGenerate a conventional commit message:"

/-- Lines 252–272 of `cli.py`: call `generate_commit_message` with the
current `status_output` and `diff_output`, show the message, confirm, and
run `git commit -m`. `aIdx` is the index of the next operator answer. -/
def generatePhase (env : Env) (aIdx : Nat) (confirms : List String)
    (runs : List (List String)) (statusOutput diffOutput : String) : Trace :=
  let userContent := promptFor statusOutput diffOutput
  match env.backend with
  | none =>
      { outcome := .backendError, confirms := confirms, stagingRuns := runs,
        genInput := some (statusOutput, diffOutput),
        backendPrompt := some userContent, generated := none,
        commitMsg := none }
  | some resp =>
      let commitMessage := resp.content
      let confirms := confirms ++ [commitConfirmText]
      if env.answers aIdx then
        if env.commitOk then
          { outcome := .committed, confirms := confirms, stagingRuns := runs,
            genInput := some (statusOutput, diffOutput),
            backendPrompt := some userContent,
            generated := some commitMessage, commitMsg := some commitMessage }
        else
          { outcome := .commitFailed, confirms := confirms,
            stagingRuns := runs,
            genInput := some (statusOutput, diffOutput),
            backendPrompt := some userContent,
            generated := some commitMessage, commitMsg := some commitMessage }
      else
        { outcome := .commitDeclined, confirms := confirms,
          stagingRuns := runs,
          genInput := some (statusOutput, diffOutput),
          backendPrompt := some userContent,
          generated := some commitMessage, commitMsg := none }

/-- Lines 236–250 of `cli.py`: the `if has_unstaged:` block. `hasUnstaged`
is the boolean computed from the *initial* snapshot (lines 180–181); the
current `statusOutput`/`diffOutput` may come from a later recapture.
On acceptance `git add -u` runs; on its success `get_git_status` recaptures
(a recapture failure exits 1); on its failure the run continues with the
existing staged changes. -/
def unstagedPhase (env : Env) (aIdx sIdx cIdx : Nat) (confirms : List String)
    (runs : List (List String)) (hasUnstaged : Bool)
    (statusOutput diffOutput : String) : Trace :=
  if hasUnstaged then
    let confirms := confirms ++ [unstagedOptionalText]
    if env.answers aIdx then
      let runs := runs ++ [["git", "add", "-u"]]
      if env.stageResults sIdx then
        match capture (env.captures cIdx) with
        | .error e => mkTrace confirms runs (.gitQueryFailed (gitFailMsg e))
        | .ok s => generatePhase env (aIdx + 1) confirms runs s.status s.diff
      else
        generatePhase env (aIdx + 1) confirms runs statusOutput diffOutput
    else
      generatePhase env (aIdx + 1) confirms runs statusOutput diffOutput
  else
    generatePhase env aIdx confirms runs statusOutput diffOutput

/-- Lines 214–219 of `cli.py`, then the fall-through to line 236: after an
accepted and successful required staging action, recapture; if the staged
diff is still empty, exit with `"Still no staged changes to commit."`;
otherwise continue with the recaptured snapshot but the *stale*
`hasUnstaged` boolean. -/
def afterRequired (env : Env) (confirms : List String)
    (runs : List (List String)) (hasUnstaged : Bool) : Trace :=
  match capture (env.captures 1) with
  | .error e => mkTrace confirms runs (.gitQueryFailed (gitFailMsg e))
  | .ok s1 =>
      if s1.diff = "" then mkTrace confirms runs .stillNothingStaged
      else unstagedPhase env 1 1 2 confirms runs hasUnstaged s1.status s1.diff

/-- The `commit` command (lines 168–272 of `cli.py`). -/
def runCommit (env : Env) : Trace :=
  match capture (env.captures 0) with
  | .error e => mkTrace [] [] (.gitQueryFailed (gitFailMsg e))
  | .ok s0 =>
    if s0.status = "" then mkTrace [] [] .noChanges
    else
      let hasUntracked : Bool := pyStrip s0.untracked ≠ ""
      let hasUnstaged : Bool := pyStrip s0.unstaged ≠ ""
      if s0.diff = "" then
        if hasUntracked then
          let confirms := [untrackedRequiredText]
          if env.answers 0 then
            let runs := [["git", "add", "."]]
            if env.stageResults 0 then
              afterRequired env confirms runs hasUnstaged
            else mkTrace confirms runs .requiredStagingFailed
          else mkTrace confirms [] .requiredStagingDeclined
        else
          let confirms := [modifiedRequiredText]
          if env.answers 0 then
            let runs := [["git", "add", "-u"]]
            if env.stageResults 0 then
              afterRequired env confirms runs hasUnstaged
            else mkTrace confirms runs .requiredStagingFailed
          else mkTrace confirms [] .requiredStagingDeclined
      else if hasUntracked then
        let confirms := [untrackedOptionalText]
        if env.answers 0 then
          let runs := [["git", "add", "."]]
          if env.stageResults 0 then
            match capture (env.captures 1) with
            | .error e => mkTrace confirms runs (.gitQueryFailed (gitFailMsg e))
            | .ok s1 =>
                unstagedPhase env 1 1 2 confirms runs hasUnstaged
                  s1.status s1.diff
          else
            unstagedPhase env 1 1 1 confirms runs hasUnstaged
              s0.status s0.diff
        else
          unstagedPhase env 1 0 1 confirms [] hasUnstaged s0.status s0.diff
      else
        unstagedPhase env 0 0 1 [] [] hasUnstaged s0.status s0.diff

/-! ### Structural lemmas about the phases -/

theorem generatePhase_genInput (env : Env) (a : Nat) (cs : List String)
    (rs : List (List String)) (st df : String) :
    (generatePhase env a cs rs st df).genInput = some (st, df) := by
  unfold generatePhase
  rcases hb : env.backend with _ | r
  · rfl
  · by_cases ha : env.answers a <;> by_cases hc : env.commitOk <;>
      simp [ha, hc]

theorem generatePhase_backendPrompt (env : Env) (a : Nat) (cs : List String)
    (rs : List (List String)) (st df : String) :
    (generatePhase env a cs rs st df).backendPrompt = some (promptFor st df) := by
  unfold generatePhase
  rcases hb : env.backend with _ | r
  · rfl
  · by_cases ha : env.answers a <;> by_cases hc : env.commitOk <;>
      simp [ha, hc]

theorem generatePhase_outcome_cases (env : Env) (a : Nat) (cs : List String)
    (rs : List (List String)) (st df : String) :
    (generatePhase env a cs rs st df).outcome = .backendError ∨
    (generatePhase env a cs rs st df).outcome = .committed ∨
    (generatePhase env a cs rs st df).outcome = .commitFailed ∨
    (generatePhase env a cs rs st df).outcome = .commitDeclined := by
  unfold generatePhase
  rcases hb : env.backend with _ | r
  · left; rfl
  · by_cases ha : env.answers a <;> by_cases hc : env.commitOk <;>
      simp [ha, hc]

theorem generatePhase_commitDeclined_msg (env : Env) (a : Nat)
    (cs : List String) (rs : List (List String)) (st df : String)
    (h : (generatePhase env a cs rs st df).outcome = .commitDeclined) :
    (generatePhase env a cs rs st df).commitMsg = none := by
  rcases hb : env.backend with _ | r
  · simp [generatePhase, hb]
  · by_cases ha : env.answers a <;> by_cases hc : env.commitOk <;>
      simp [generatePhase, hb, ha, hc] at h ⊢

theorem generatePhase_backend_none (env : Env) (a : Nat) (cs : List String)
    (rs : List (List String)) (st df : String) (h : env.backend = none) :
    (generatePhase env a cs rs st df).outcome = .backendError ∧
    (generatePhase env a cs rs st df).generated = none ∧
    (generatePhase env a cs rs st df).commitMsg = none := by
  unfold generatePhase
  rw [h]
  exact ⟨rfl, rfl, rfl⟩

theorem generatePhase_backend_some (env : Env) (a : Nat) (cs : List String)
    (rs : List (List String)) (st df : String) (r : ChatResponse)
    (h : env.backend = some r) :
    (generatePhase env a cs rs st df).generated = some r.content ∧
    ((generatePhase env a cs rs st df).commitMsg = none ∨
      (generatePhase env a cs rs st df).commitMsg = some r.content) := by
  unfold generatePhase
  rw [h]
  by_cases ha : env.answers a <;> by_cases hc : env.commitOk <;>
    simp [ha, hc]

theorem generatePhase_commitMsg_generated (env : Env) (a : Nat)
    (cs : List String) (rs : List (List String)) (st df : String)
    (h : (generatePhase env a cs rs st df).commitMsg.isSome) :
    (generatePhase env a cs rs st df).commitMsg =
      (generatePhase env a cs rs st df).generated := by
  rcases hb : env.backend with _ | r
  · simp [generatePhase, hb]
  · by_cases ha : env.answers a <;> by_cases hc : env.commitOk <;>
      simp [generatePhase, hb, ha, hc] at h ⊢

/-- Every trace of the workflow is either a pre-generation exit
(`mkTrace` with one of the five early outcomes) or the result of the
generation/commit phase. -/
def TraceShape (env : Env) (t : Trace) : Prop :=
  (∃ cs rs o, t = mkTrace cs rs o ∧
      ((∃ m, o = Outcome.gitQueryFailed m) ∨ o = Outcome.noChanges ∨
        o = Outcome.requiredStagingDeclined ∨
        o = Outcome.requiredStagingFailed ∨
        o = Outcome.stillNothingStaged)) ∨
  (∃ a cs rs st df, t = generatePhase env a cs rs st df)

theorem unstagedPhase_shape (env : Env) (a si ci : Nat) (cs : List String)
    (rs : List (List String)) (hu : Bool) (st df : String) :
    TraceShape env (unstagedPhase env a si ci cs rs hu st df) := by
  unfold unstagedPhase
  cases hu
  · exact Or.inr ⟨a, cs, rs, st, df, rfl⟩
  · by_cases ha : env.answers a
    · by_cases hs : env.stageResults si
      · rcases hc : capture (env.captures ci) with e | s
        · refine Or.inl ⟨cs ++ [unstagedOptionalText],
            rs ++ [["git", "add", "-u"]], _, ?_, Or.inl ⟨gitFailMsg e, rfl⟩⟩
          simp [ha, hs, hc]
        · refine Or.inr ⟨a + 1, cs ++ [unstagedOptionalText],
            rs ++ [["git", "add", "-u"]], s.status, s.diff, ?_⟩
          simp [ha, hs, hc]
      · refine Or.inr ⟨a + 1, cs ++ [unstagedOptionalText],
          rs ++ [["git", "add", "-u"]], st, df, ?_⟩
        simp [ha, hs]
    · refine Or.inr ⟨a + 1, cs ++ [unstagedOptionalText], rs, st, df, ?_⟩
      simp [ha]

theorem afterRequired_shape (env : Env) (cs : List String)
    (rs : List (List String)) (hu : Bool) :
    TraceShape env (afterRequired env cs rs hu) := by
  unfold afterRequired
  rcases hc : capture (env.captures 1) with e | s1
  · exact Or.inl ⟨cs, rs, _, rfl, Or.inl ⟨gitFailMsg e, rfl⟩⟩
  · dsimp only
    by_cases hd : s1.diff = ""
    · rw [if_pos hd]
      exact Or.inl ⟨cs, rs, _, rfl, by simp⟩
    · rw [if_neg hd]
      exact unstagedPhase_shape env 1 1 2 cs rs hu s1.status s1.diff

theorem runCommit_shape (env : Env) : TraceShape env (runCommit env) := by
  unfold runCommit
  rcases h0 : capture (env.captures 0) with e | s0
  · exact Or.inl ⟨[], [], _, rfl, Or.inl ⟨gitFailMsg e, rfl⟩⟩
  · dsimp only
    by_cases hst : s0.status = ""
    · rw [if_pos hst]
      exact Or.inl ⟨[], [], _, rfl, by simp⟩
    · rw [if_neg hst]
      by_cases hd : s0.diff = ""
      · rw [if_pos hd]
        by_cases hu : pyStrip s0.untracked = "" <;>
          by_cases ha : env.answers 0 <;>
            by_cases hs : env.stageResults 0 <;>
              simp [hu, ha, hs]
        · exact afterRequired_shape env _ _ _
        · exact Or.inl ⟨_, _, _, rfl, by simp⟩
        · exact Or.inl ⟨_, _, _, rfl, by simp⟩
        · exact Or.inl ⟨_, _, _, rfl, by simp⟩
        · exact afterRequired_shape env _ _ _
        · exact Or.inl ⟨_, _, _, rfl, by simp⟩
        · exact Or.inl ⟨_, _, _, rfl, by simp⟩
        · exact Or.inl ⟨_, _, _, rfl, by simp⟩
      · rw [if_neg hd]
        by_cases hu : pyStrip s0.untracked = ""
        · simp [hu]
          exact unstagedPhase_shape env _ _ _ _ _ _ _ _
        · by_cases ha : env.answers 0
          · by_cases hs : env.stageResults 0
            · simp [hu, ha, hs]
              rcases hc : capture (env.captures 1) with e | s1
              · exact Or.inl ⟨_, _, _, rfl, Or.inl ⟨gitFailMsg e, rfl⟩⟩
              · exact unstagedPhase_shape env _ _ _ _ _ _ _ _
            · simp [hu, ha, hs]
              exact unstagedPhase_shape env _ _ _ _ _ _ _ _
          · simp [hu, ha]
            exact unstagedPhase_shape env _ _ _ _ _ _ _ _

/-! ### Substring occurrence (used to state what the reported error carries) -/

/-- Does the pattern `p` occur as a contiguous run inside `l`? -/
def containsAux (p : List Char) : List Char → Bool
  | [] => p.isEmpty
  | c :: rest => List.isPrefixOf p (c :: rest) || containsAux p rest

/-- `strContains s pat = true` iff `pat` occurs contiguously inside `s`. -/
def strContains (s pat : String) : Bool :=
  containsAux pat.toList s.toList

theorem isPrefixOf_self_append (p q : List Char) :
    List.isPrefixOf p (p ++ q) = true := by
  induction p with
  | nil => simp [List.isPrefixOf]
  | cons c cs ih => simp [List.isPrefixOf, ih]

theorem containsAux_nil_pat (l : List Char) : containsAux [] l = true := by
  induction l with
  | nil => rfl
  | cons c rest ih => simp [containsAux, ih]

theorem containsAux_self_append (p y : List Char) :
    containsAux p (p ++ y) = true := by
  cases p with
  | nil => simpa using containsAux_nil_pat y
  | cons c cs => simp [containsAux, isPrefixOf_self_append]

theorem containsAux_append (p x y : List Char) :
    containsAux p (x ++ (p ++ y)) = true := by
  induction x with
  | nil => simpa using containsAux_self_append p y
  | cons c cs ih => simp [containsAux, ih]

theorem strContains_middle (a b c : String) :
    strContains (a ++ b ++ c) b = true := by
  unfold strContains
  have h : (a ++ b ++ c).toList = a.toList ++ (b.toList ++ c.toList) := by
    simp [String.toList, String.data_append]
  rw [h]
  exact containsAux_append b.toList a.toList c.toList

/-! ### Further derived lemmas about the workflow phases -/

theorem unstagedPhase_outcome_cases (env : Env) (a si ci : Nat)
    (cs : List String) (rs : List (List String)) (hu : Bool)
    (st df : String) :
    (∃ m, (unstagedPhase env a si ci cs rs hu st df).outcome
        = Outcome.gitQueryFailed m) ∨
    (unstagedPhase env a si ci cs rs hu st df).outcome = Outcome.backendError ∨
    (unstagedPhase env a si ci cs rs hu st df).outcome = Outcome.committed ∨
    (unstagedPhase env a si ci cs rs hu st df).outcome = Outcome.commitFailed ∨
    (unstagedPhase env a si ci cs rs hu st df).outcome = Outcome.commitDeclined := by
  unfold unstagedPhase
  cases hu
  · have := generatePhase_outcome_cases env a cs rs st df
    tauto
  · by_cases ha : env.answers a
    · by_cases hs : env.stageResults si
      · rcases hc : capture (env.captures ci) with e | s
        · simp [ha, hs, hc, mkTrace]
        · simp [ha, hs, hc]
          have := generatePhase_outcome_cases env (a + 1)
            (cs ++ [unstagedOptionalText]) (rs ++ [["git", "add", "-u"]])
            s.status s.diff
          tauto
      · simp [ha, hs]
        have := generatePhase_outcome_cases env (a + 1)
          (cs ++ [unstagedOptionalText]) (rs ++ [["git", "add", "-u"]]) st df
        tauto
    · simp [ha]
      have := generatePhase_outcome_cases env (a + 1)
        (cs ++ [unstagedOptionalText]) rs st df
      tauto

theorem unstagedPhase_genInput_decline (env : Env) (a si ci : Nat)
    (cs : List String) (rs : List (List String)) (hu : Bool) (st df : String)
    (hA : ∀ i j, env.answers i = false ∨ env.stageResults j = false) :
    (unstagedPhase env a si ci cs rs hu st df).genInput = some (st, df) := by
  unfold unstagedPhase
  cases hu
  · exact generatePhase_genInput env a cs rs st df
  · by_cases ha : env.answers a
    · have hs : env.stageResults si = false := by
        rcases hA a si with h | h
        · rw [ha] at h; exact absurd h (by simp)
        · exact h
      simp [ha, hs]
      exact generatePhase_genInput env (a + 1) (cs ++ [unstagedOptionalText])
        (rs ++ [["git", "add", "-u"]]) st df
    · simp [ha]
      exact generatePhase_genInput env (a + 1) (cs ++ [unstagedOptionalText])
        rs st df

theorem generatePhase_confirms_mem (env : Env) (a : Nat) (cs : List String)
    (rs : List (List String)) (st df : String) (x : String) (hx : x ∈ cs) :
    x ∈ (generatePhase env a cs rs st df).confirms := by
  unfold generatePhase
  rcases hb : env.backend with _ | r
  · exact hx
  · by_cases ha : env.answers a <;> by_cases hc : env.commitOk <;>
      simp [ha, hc] <;> exact Or.inl hx

theorem unstagedPhase_confirm_mem (env : Env) (a si ci : Nat)
    (cs : List String) (rs : List (List String)) (st df : String) :
    unstagedOptionalText ∈ (unstagedPhase env a si ci cs rs true st df).confirms := by
  unfold unstagedPhase
  by_cases ha : env.answers a
  · by_cases hs : env.stageResults si
    · rcases hc : capture (env.captures ci) with e | s
      · simp [ha, hs, hc, mkTrace]
      · simp [ha, hs, hc]
        exact generatePhase_confirms_mem env (a + 1)
          (cs ++ [unstagedOptionalText]) (rs ++ [["git", "add", "-u"]])
          s.status s.diff unstagedOptionalText (by simp)
    · simp [ha, hs]
      exact generatePhase_confirms_mem env (a + 1)
        (cs ++ [unstagedOptionalText]) (rs ++ [["git", "add", "-u"]])
        st df unstagedOptionalText (by simp)
  · simp [ha]
    exact generatePhase_confirms_mem env (a + 1)
      (cs ++ [unstagedOptionalText]) rs st df unstagedOptionalText (by simp)

theorem runCommit_backendPrompt_map (env : Env) :
    (runCommit env).backendPrompt =
      Option.map (fun p : String × String => promptFor p.1 p.2)
        (runCommit env).genInput := by
  rcases runCommit_shape env with ⟨cs, rs, o, he, ho⟩ | ⟨a, cs, rs, st, df, he⟩
  · rw [he]; rfl
  · rw [he, generatePhase_backendPrompt, generatePhase_genInput]; rfl

/-! ### Concrete environments used as witnesses -/

/-- A successful git query with the given stdout. -/
def okQ (s : String) : RawQuery := ⟨true, 0, s, ""⟩

def envC2 : Env :=
  ⟨fun _ => ⟨okQ "", okQ "", okQ "", okQ ""⟩, fun _ => false, fun _ => true,
    some ⟨"chore: noop"⟩, true⟩

def envC4 : Env :=
  ⟨fun _ => ⟨okQ "M  a.txt", okQ "diff --staged", okQ "", okQ ""⟩,
    fun _ => true, fun _ => true, some ⟨"feat: add a"⟩, true⟩

def envC5 : Env :=
  ⟨fun _ => ⟨okQ "M  a.txt", okQ "diff --staged", okQ "", okQ ""⟩,
    fun _ => false, fun _ => true, some ⟨"fix: b"⟩, true⟩

def envC6 : Env :=
  ⟨fun _ => ⟨okQ "M  a.txt", okQ "diff --staged", okQ "", okQ ""⟩,
    fun _ => true, fun _ => true, none, true⟩

def envC7 : Env :=
  ⟨fun _ => ⟨okQ " M a.txt", okQ "", okQ "some diff", okQ ""⟩,
    fun _ => true, fun _ => true, some ⟨"m"⟩, true⟩

def envC10a : Env :=
  ⟨fun _ => ⟨okQ "M  a.txt", okQ "diff --staged", okQ "", okQ ""⟩,
    fun _ => false, fun _ => true, some ⟨"m1"⟩, true⟩

def envC10b : Env :=
  ⟨fun _ => ⟨okQ "M  a.txt", okQ "diff --staged", okQ "unstaged tail", okQ ""⟩,
    fun _ => false, fun _ => true, some ⟨"m2"⟩, true⟩

/-! ### The claims -/

/-- C2: for every snapshot whose status text is empty, the commit workflow
exits immediately with the `noChanges` outcome (exit 0): no staging action
is proposed or run, no chat-backend call is made, and no commit is
invoked. -/
theorem C2_empty_status_exits (env : Env) (s : Snapshot)
    (h : capture (env.captures 0) = Except.ok s) (hs : s.status = "") :
    (runCommit env).outcome = Outcome.noChanges ∧
    Outcome.exitCode (runCommit env).outcome = 0 ∧
    (runCommit env).confirms = [] ∧
    (runCommit env).stagingRuns = [] ∧
    (runCommit env).genInput = none ∧
    (runCommit env).backendPrompt = none ∧
    (runCommit env).commitMsg = none := by
  unfold runCommit
  rw [h]
  dsimp only
  rw [if_pos hs]
  exact ⟨rfl, rfl, rfl, rfl, rfl, rfl, rfl⟩

/-- C2 witness: a clean tree exits with no changes and no backend call. -/
theorem C2_empty_status_exits_witness :
    capture (envC2.captures 0) = Except.ok ⟨"", "", "", ""⟩ ∧
    (runCommit envC2).outcome = Outcome.noChanges ∧
    (runCommit envC2).backendPrompt = none :=
  ⟨rfl, (C2_empty_status_exits envC2 ⟨"", "", "", ""⟩ rfl rfl).1,
    (C2_empty_status_exits envC2 ⟨"", "", "", ""⟩ rfl rfl).2.2.2.2.2.1⟩

/-- C4: the text extracted from the backend response is returned by the
generation step unmodified (`response.content`), and the exact same string
is the message handed to `git commit -m` whenever commit is invoked. -/
theorem C4_message_roundtrip (env : Env) (r : ChatResponse)
    (h : env.backend = some r) :
    ((runCommit env).backendPrompt.isSome →
      (runCommit env).generated = some r.content) ∧
    ((runCommit env).commitMsg.isSome →
      (runCommit env).commitMsg = (runCommit env).generated) := by
  rcases runCommit_shape env with ⟨cs, rs, o, he, ho⟩ | ⟨a, cs, rs, st, df, he⟩
  · rw [he]
    constructor <;> intro hk <;> simp [mkTrace] at hk
  · rw [he]
    exact ⟨fun _ => (generatePhase_backend_some env a cs rs st df r h).1,
      fun hk => generatePhase_commitMsg_generated env a cs rs st df hk⟩

/-- C4 witness: a committed run in which the commit message equals the
backend response content byte for byte. -/
theorem C4_message_roundtrip_witness :
    envC4.backend = some ⟨"feat: add a"⟩ ∧
    (runCommit envC4).backendPrompt.isSome = true ∧
    (runCommit envC4).generated = some "feat: add a" ∧
    (runCommit envC4).commitMsg = (runCommit envC4).generated :=
  ⟨rfl, rfl, (C4_message_roundtrip envC4 ⟨"feat: add a"⟩ rfl).1 rfl,
    (C4_message_roundtrip envC4 ⟨"feat: add a"⟩ rfl).2 rfl⟩

/-- C5: every error outcome (query failure, required staging failure,
commit failure) carries a non-zero exit status, while both user
cancellations (declining a required staging proposal, declining the final
confirmation) exit 0 with no commit invoked. -/
theorem C5_outcome_discipline (env : Env) :
    (∀ m, (runCommit env).outcome = Outcome.gitQueryFailed m →
      Outcome.exitCode (runCommit env).outcome = 1) ∧
    ((runCommit env).outcome = Outcome.requiredStagingFailed →
      Outcome.exitCode (runCommit env).outcome = 1) ∧
    ((runCommit env).outcome = Outcome.commitFailed →
      Outcome.exitCode (runCommit env).outcome = 1) ∧
    ((runCommit env).outcome = Outcome.requiredStagingDeclined →
      Outcome.exitCode (runCommit env).outcome = 0 ∧
      (runCommit env).commitMsg = none) ∧
    ((runCommit env).outcome = Outcome.commitDeclined →
      Outcome.exitCode (runCommit env).outcome = 0 ∧
      (runCommit env).commitMsg = none) := by
  refine ⟨fun m hm => by rw [hm]; rfl, fun hm => by rw [hm]; rfl,
    fun hm => by rw [hm]; rfl, ?_, ?_⟩
  · intro hm
    refine ⟨by rw [hm]; rfl, ?_⟩
    rcases runCommit_shape env with ⟨cs, rs, o, he, ho⟩ | ⟨a, cs, rs, st, df, he⟩
    · rw [he]; rfl
    · rw [he] at hm
      rcases generatePhase_outcome_cases env a cs rs st df with h | h | h | h <;>
        simp [hm] at h
  · intro hm
    refine ⟨by rw [hm]; rfl, ?_⟩
    rcases runCommit_shape env with ⟨cs, rs, o, he, ho⟩ | ⟨a, cs, rs, st, df, he⟩
    · rw [he]; rfl
    · rw [he] at hm ⊢
      exact generatePhase_commitDeclined_msg env a cs rs st df hm

/-- C5 witness: declining the final confirmation ends the run with exit 0
and no commit. -/
theorem C5_outcome_discipline_witness :
    (runCommit envC5).outcome = Outcome.commitDeclined ∧
    Outcome.exitCode (runCommit envC5).outcome = 0 ∧
    (runCommit envC5).commitMsg = none :=
  ⟨rfl, ((C5_outcome_discipline envC5).2.2.2.2 rfl).1,
    ((C5_outcome_discipline envC5).2.2.2.2 rfl).2⟩

/-- C6: if the chat-backend call raises, the run aborts: no message is
produced locally, `git commit` is never invoked, and if generation was
reached the outcome is the backend error. -/
theorem C6_backend_failure_aborts (env : Env) (h : env.backend = none) :
    (runCommit env).generated = none ∧
    (runCommit env).commitMsg = none ∧
    ((runCommit env).backendPrompt.isSome →
      (runCommit env).outcome = Outcome.backendError) := by
  rcases runCommit_shape env with ⟨cs, rs, o, he, ho⟩ | ⟨a, cs, rs, st, df, he⟩
  · rw [he]
    exact ⟨rfl, rfl, fun hk => by simp [mkTrace] at hk⟩
  · rw [he]
    obtain ⟨ho1, hg, hm⟩ := generatePhase_backend_none env a cs rs st df h
    exact ⟨hg, hm, fun _ => ho1⟩

/-- C6 witness: a run that reaches generation with a failing backend ends
in `backendError` with no commit message anywhere. -/
theorem C6_backend_failure_aborts_witness :
    envC6.backend = none ∧
    (runCommit envC6).backendPrompt.isSome = true ∧
    (runCommit envC6).commitMsg = none ∧
    (runCommit envC6).outcome = Outcome.backendError :=
  ⟨rfl, rfl, (C6_backend_failure_aborts envC6 rfl).2.1,
    (C6_backend_failure_aborts envC6 rfl).2.2 rfl⟩

/-- C7: if a required staging action is accepted and applied but the
recaptured staged diff is still empty, the run ends with
`stillNothingStaged` as a neutral (exit 0) outcome, and neither generation
nor commit is invoked. -/
theorem C7_still_nothing_staged (env : Env) (s0 s1 : Snapshot)
    (h0 : capture (env.captures 0) = Except.ok s0) (hst : ¬s0.status = "")
    (hd0 : s0.diff = "") (ha : env.answers 0 = true)
    (hs : env.stageResults 0 = true)
    (h1 : capture (env.captures 1) = Except.ok s1) (hd1 : s1.diff = "") :
    (runCommit env).outcome = Outcome.stillNothingStaged ∧
    Outcome.exitCode (runCommit env).outcome = 0 ∧
    (runCommit env).genInput = none ∧
    (runCommit env).backendPrompt = none ∧
    (runCommit env).commitMsg = none := by
  unfold runCommit
  rw [h0]
  dsimp only
  rw [if_neg hst, if_pos hd0]
  by_cases hu : pyStrip s0.untracked = "" <;>
    simp [hu, ha, hs, afterRequired, h1, hd1, mkTrace, Outcome.exitCode]

/-- C7 witness: an accepted `git add -u` that leaves the staged diff empty
ends neutrally with nothing generated. -/
theorem C7_still_nothing_staged_witness :
    (runCommit envC7).outcome = Outcome.stillNothingStaged ∧
    Outcome.exitCode (runCommit envC7).outcome = 0 ∧
    (runCommit envC7).backendPrompt = none := by
  have k := C7_still_nothing_staged envC7 ⟨"M a.txt", "", "some diff", ""⟩
    ⟨"M a.txt", "", "some diff", ""⟩ rfl (by decide) rfl rfl rfl rfl rfl
  exact ⟨k.1, k.2.1, k.2.2.2.1⟩

/-- C10: the prompt submitted to the chat backend is a function of the
status text and staged diff alone; two runs reaching generation with the
same `(status, staged diff)` pair submit the identical prompt, whatever
their unstaged or untracked state. -/
theorem C10_prompt_noninterference (e1 e2 : Env) (st df : String)
    (h1 : (runCommit e1).genInput = some (st, df))
    (h2 : (runCommit e2).genInput = some (st, df)) :
    (runCommit e1).backendPrompt = some (promptFor st df) ∧
    (runCommit e1).backendPrompt = (runCommit e2).backendPrompt := by
  have k1 : (runCommit e1).backendPrompt = some (promptFor st df) := by
    rw [runCommit_backendPrompt_map e1, h1]; rfl
  have k2 : (runCommit e2).backendPrompt = some (promptFor st df) := by
    rw [runCommit_backendPrompt_map e2, h2]; rfl
  exact ⟨k1, k1.trans k2.symm⟩

/-- C10 witness: two runs with identical status and staged diff but
different unstaged diffs submit the same prompt. -/
theorem C10_prompt_noninterference_witness :
    (runCommit envC10a).genInput = some ("M  a.txt", "diff --staged") ∧
    (runCommit envC10b).genInput = some ("M  a.txt", "diff --staged") ∧
    pyStrip ((envC10a.captures 0).unstagedDiff.stdout) ≠
      pyStrip ((envC10b.captures 0).unstagedDiff.stdout) ∧
    (runCommit envC10a).backendPrompt = (runCommit envC10b).backendPrompt :=
  ⟨rfl, rfl, by decide,
    (C10_prompt_noninterference envC10a envC10b "M  a.txt" "diff --staged"
      rfl rfl).2⟩

theorem unstagedPhase_not_required (env : Env) (a si ci : Nat)
    (cs : List String) (rs : List (List String)) (hu : Bool) (st df : String) :
    (unstagedPhase env a si ci cs rs hu st df).outcome
        ≠ Outcome.requiredStagingDeclined ∧
    (unstagedPhase env a si ci cs rs hu st df).outcome
        ≠ Outcome.requiredStagingFailed ∧
    (unstagedPhase env a si ci cs rs hu st df).outcome
        ≠ Outcome.stillNothingStaged := by
  rcases unstagedPhase_outcome_cases env a si ci cs rs hu st df with
    ⟨m, h⟩ | h | h | h | h <;> rw [h] <;>
    exact ⟨by simp, by simp, by simp⟩

/-- In the branch where the initial snapshot already has a non-empty staged
diff, the run is a git-query failure after an accepted optional staging
action, or an `unstagedPhase` continuation; if every proposal is declined
or every staging subprocess fails, generation is entered with the initial
status and staged diff. -/
theorem runCommit_staged_branch (env : Env) (s : Snapshot)
    (h0 : capture (env.captures 0) = Except.ok s) (hst : ¬s.status = "")
    (hd : ¬s.diff = "") :
    (env.answers 0 = true ∧ env.stageResults 0 = true ∧
      ∃ m cs rs, runCommit env = mkTrace cs rs (Outcome.gitQueryFailed m)) ∨
    (∃ a si ci cs rs hu st2 df2,
      runCommit env = unstagedPhase env a si ci cs rs hu st2 df2 ∧
      ((∀ i j, env.answers i = false ∨ env.stageResults j = false) →
        st2 = s.status ∧ df2 = s.diff)) := by
  unfold runCommit
  rw [h0]
  dsimp only
  rw [if_neg hst, if_neg hd]
  by_cases hu : pyStrip s.untracked = ""
  · simp only [hu, ne_eq, not_true_eq_false, decide_False, Bool.false_eq_true,
      if_false]
    exact Or.inr ⟨0, 0, 1, [], [], _, s.status, s.diff, rfl,
      fun _ => ⟨rfl, rfl⟩⟩
  · simp only [hu, ne_eq, not_false_eq_true, decide_True, if_true]
    by_cases ha : env.answers 0
    · by_cases hsr : env.stageResults 0
      · rcases hc : capture (env.captures 1) with e | s1
        · simp only [ha, hsr, hc, if_true]
          exact Or.inl ⟨trivial, trivial, gitFailMsg e, [untrackedOptionalText],
            [["git", "add", "."]], rfl⟩
        · simp only [ha, hsr, hc, if_true]
          refine Or.inr ⟨1, 1, 2, [untrackedOptionalText],
            [["git", "add", "."]], _, s1.status, s1.diff, rfl, ?_⟩
          intro hA
          rcases hA 0 0 with h | h
          · rw [ha] at h; exact absurd h (by simp)
          · rw [hsr] at h; exact absurd h (by simp)
      · simp only [ha, if_true, hsr, Bool.false_eq_true, if_false]
        exact Or.inr ⟨1, 1, 1, [untrackedOptionalText],
          [["git", "add", "."]], _, s.status, s.diff, rfl,
          fun _ => ⟨rfl, rfl⟩⟩
    · simp only [ha, Bool.false_eq_true, if_false]
      exact Or.inr ⟨1, 0, 1, [untrackedOptionalText], [], _, s.status,
        s.diff, rfl, fun _ => ⟨rfl, rfl⟩⟩

/-- C3: when the initial snapshot already has a non-empty staged diff, no
required staging action is ever proposed (the run can never end in a
required-staging outcome), and if the operator rejects every proposal or
every staging command fails, the run still reaches message generation with
the already-staged content. -/
theorem C3_staged_only_optional (env : Env) (s : Snapshot)
    (h0 : capture (env.captures 0) = Except.ok s) (hst : ¬s.status = "")
    (hd : ¬s.diff = "") :
    ((runCommit env).outcome ≠ Outcome.requiredStagingDeclined ∧
     (runCommit env).outcome ≠ Outcome.requiredStagingFailed ∧
     (runCommit env).outcome ≠ Outcome.stillNothingStaged) ∧
    ((∀ i j, env.answers i = false ∨ env.stageResults j = false) →
      (runCommit env).genInput = some (s.status, s.diff)) := by
  rcases runCommit_staged_branch env s h0 hst hd with
    ⟨ha, hsr, m, cs, rs, he⟩ | ⟨a, si, ci, cs, rs, hu, st2, df2, he, himp⟩
  · constructor
    · rw [he]
      exact ⟨by simp [mkTrace], by simp [mkTrace], by simp [mkTrace]⟩
    · intro hA
      rcases hA 0 0 with h | h
      · rw [ha] at h; exact absurd h (by simp)
      · rw [hsr] at h; exact absurd h (by simp)
  · constructor
    · rw [he]
      exact unstagedPhase_not_required env a si ci cs rs hu st2 df2
    · intro hA
      obtain ⟨rfl, rfl⟩ := himp hA
      rw [he]
      exact unstagedPhase_genInput_decline env a si ci cs rs hu
        s.status s.diff hA

def envC3 : Env :=
  ⟨fun _ => ⟨okQ "M  a.txt\n?? b.txt", okQ "diff --staged", okQ "unstaged",
    okQ "b.txt"⟩, fun _ => false, fun _ => true, some ⟨"m"⟩, true⟩

/-- C3 witness: a run with a staged diff plus untracked and unstaged
changes in which every proposal is declined still reaches generation with
the originally staged content. -/
theorem C3_staged_only_optional_witness :
    (runCommit envC3).outcome ≠ Outcome.requiredStagingDeclined ∧
    (runCommit envC3).genInput = some ("M  a.txt\n?? b.txt", "diff --staged") ∧
    (runCommit envC3).confirms =
      [untrackedOptionalText, unstagedOptionalText, commitConfirmText] := by
  have k := C3_staged_only_optional envC3
    ⟨"M  a.txt\n?? b.txt", "diff --staged", "unstaged", "b.txt"⟩
    rfl (by decide) (by decide)
  exact ⟨k.1.1, k.2 (fun i j => Or.inl rfl), rfl⟩

theorem strToList_append (a b : String) :
    (a ++ b).toList = a.toList ++ b.toList :=
  String.data_append a b

theorem strContains_mid (a pat y : String) :
    strContains (a ++ (pat ++ y)) pat = true := by
  unfold strContains
  have h : (a ++ (pat ++ y)).toList
      = a.toList ++ (pat.toList ++ y.toList) := by
    simp [strToList_append]
  rw [h]
  exact containsAux_append pat.toList a.toList y.toList

theorem strContains_of_decomp (s a pat y : String)
    (h : s = a ++ (pat ++ y)) : strContains s pat = true := by
  rw [h]
  exact strContains_mid a pat y

/-- The reported message in right-associated form with the two leading
literals merged. -/
theorem gitFailMsg_decomp (e : CmdFailure) :
    gitFailMsg e = "Git command failed: Command '"
      ++ (pyListRepr e.cmd ++ ("' returned non-zero exit status "
        ++ (toString e.code ++ "."))) := by
  unfold gitFailMsg cpeStr
  simp only [← String.append_assoc]
  rw [show ("Git command failed: " ++ "Command '" : String)
    = "Git command failed: Command '" from rfl]

/-- C8 amended: `capture` fails on the first query that exits non-zero —
later queries are ignored and no snapshot data is produced (the result
depends only on the failed query) — and the reported error message carries
the failed command and its exit status; the captured stderr is stored on
the error value but does not appear in the reported message. -/
theorem C8_query_failure_failfast (c : CaptureRaw) :
    (c.status.ok = false →
      capture c = Except.error ⟨["git", "status", "--porcelain"],
        c.status.exitCode, c.status.stdout, c.status.stderr⟩ ∧
      ∀ d : CaptureRaw, d.status = c.status → capture d = capture c) ∧
    (c.status.ok = true → c.stagedDiff.ok = false →
      capture c = Except.error ⟨["git", "diff", "--staged"],
        c.stagedDiff.exitCode, c.stagedDiff.stdout, c.stagedDiff.stderr⟩) ∧
    (c.status.ok = true → c.stagedDiff.ok = true →
      c.unstagedDiff.ok = false →
      capture c = Except.error ⟨["git", "diff"],
        c.unstagedDiff.exitCode, c.unstagedDiff.stdout,
        c.unstagedDiff.stderr⟩) ∧
    (c.status.ok = true → c.stagedDiff.ok = true →
      c.unstagedDiff.ok = true → c.untracked.ok = false →
      capture c = Except.error ⟨["git", "ls-files", "--others",
        "--exclude-standard"], c.untracked.exitCode, c.untracked.stdout,
        c.untracked.stderr⟩) ∧
    (∀ e, capture c = Except.error e →
      gitFailMsg e = "Git command failed: " ++ cpeStr e ∧
      strContains (gitFailMsg e) (pyListRepr e.cmd) = true ∧
      strContains (gitFailMsg e) (toString e.code) = true) := by
  refine ⟨?_, ?_, ?_, ?_, ?_⟩
  · intro hb
    refine ⟨by unfold capture; rw [if_pos hb], ?_⟩
    intro d hds
    unfold capture
    rw [hds, if_pos hb, if_pos hb]
  · intro h1 h2
    unfold capture
    simp [h1, h2]
  · intro h1 h2 h3
    unfold capture
    simp [h1, h2, h3]
  · intro h1 h2 h3 h4
    unfold capture
    simp [h1, h2, h3, h4]
  · intro e _
    refine ⟨rfl, ?_, ?_⟩
    · exact strContains_of_decomp _ _ _
        ("' returned non-zero exit status " ++ (toString e.code ++ "."))
        (gitFailMsg_decomp e)
    · refine strContains_of_decomp _
        ("Git command failed: Command '"
          ++ (pyListRepr e.cmd ++ "' returned non-zero exit status "))
        _ "." ?_
      rw [gitFailMsg_decomp e]
      simp [String.append_assoc]

def crawC8 : CaptureRaw :=
  ⟨⟨false, 128, "",
    "fatal: not a git repository (or any of the parent directories): .git"⟩,
    okQ "", okQ "", okQ ""⟩

def envC8 : Env :=
  ⟨fun _ => crawC8, fun _ => true, fun _ => true, some ⟨"m"⟩, true⟩

/-- C8 counterexample: a failing `git status --porcelain` with a non-empty
stderr. The workflow terminates immediately and the reported message
carries the failed command, but the stderr text does not appear anywhere
in it — refuting the claim that the reported error carries the stderr. -/
theorem C8_query_failure_counterexample :
    capture crawC8 = Except.error ⟨["git", "status", "--porcelain"], 128, "",
      "fatal: not a git repository (or any of the parent directories): .git"⟩ ∧
    (runCommit envC8).outcome = Outcome.gitQueryFailed
      "Git command failed: Command '['git', 'status', '--porcelain']' returned non-zero exit status 128." ∧
    crawC8.status.stderr ≠ "" ∧
    strContains
      "Git command failed: Command '['git', 'status', '--porcelain']' returned non-zero exit status 128."
      "fatal: not a git repository (or any of the parent directories): .git"
      = false := by
  exact ⟨rfl, rfl, by decide, by decide⟩

/-- C8 witness: the fail-fast behaviour and command-in-message guarantee
evaluated at the concrete failing capture. -/
theorem C8_query_failure_failfast_witness :
    crawC8.status.ok = false ∧
    capture crawC8 = Except.error ⟨["git", "status", "--porcelain"], 128, "",
      "fatal: not a git repository (or any of the parent directories): .git"⟩ ∧
    strContains
      (gitFailMsg ⟨["git", "status", "--porcelain"], 128, "",
        "fatal: not a git repository (or any of the parent directories): .git"⟩)
      (pyListRepr ["git", "status", "--porcelain"]) = true :=
  ⟨rfl, ((C8_query_failure_failfast crawC8).1 rfl).1,
    ((C8_query_failure_failfast crawC8).2.2.2.2 _
      ((C8_query_failure_failfast crawC8).1 rfl).1).2.1⟩

theorem capture_ok_form (c : CaptureRaw) (s : Snapshot)
    (h : capture c = Except.ok s) :
    s = ⟨pyStrip c.status.stdout, pyStrip c.stagedDiff.stdout,
         pyStrip c.unstagedDiff.stdout, pyStrip c.untracked.stdout⟩ := by
  unfold capture at h
  split_ifs at h
  all_goals simp_all

/-- C9: every field of the snapshot returned by `capture` is the
`.strip()`-ped stdout of its query; consequently a whitespace-only status
output is classified as "no changes", and (with nothing else around) a
whitespace-only staged-diff output sends the run into the
nothing-staged branch, where declining the required proposal ends the
run. -/
theorem C9_fields_stripped (c : CaptureRaw) (s : Snapshot)
    (h : capture c = Except.ok s) :
    s.status = pyStrip c.status.stdout ∧
    s.diff = pyStrip c.stagedDiff.stdout ∧
    s.unstaged = pyStrip c.unstagedDiff.stdout ∧
    s.untracked = pyStrip c.untracked.stdout ∧
    (∀ env : Env, env.captures 0 = c → pyStrip c.status.stdout = "" →
      (runCommit env).outcome = Outcome.noChanges) ∧
    (∀ env : Env, env.captures 0 = c → ¬pyStrip c.status.stdout = "" →
      pyStrip c.stagedDiff.stdout = "" → pyStrip c.untracked.stdout = "" →
      env.answers 0 = false →
      (runCommit env).outcome = Outcome.requiredStagingDeclined ∧
      (runCommit env).confirms = [modifiedRequiredText]) := by
  have hform := capture_ok_form c s h
  subst hform
  refine ⟨rfl, rfl, rfl, rfl, ?_, ?_⟩
  · intro env hc0 hempty
    unfold runCommit
    rw [hc0, h]
    dsimp only
    rw [if_pos hempty]
    rfl
  · intro env hc0 hst hdiff hun hans
    unfold runCommit
    rw [hc0, h]
    dsimp only
    rw [if_neg hst, if_pos hdiff]
    have hu2 : pyStrip (pyStrip c.untracked.stdout) = "" := by
      rw [hun]; rfl
    simp [hu2, hans, mkTrace]

def crawC9a : CaptureRaw := ⟨okQ "  \n\t ", okQ " ", okQ "", okQ "\n"⟩

def envC9a : Env :=
  ⟨fun _ => crawC9a, fun _ => false, fun _ => true, some ⟨"m"⟩, true⟩

def crawC9b : CaptureRaw := ⟨okQ " M a.txt ", okQ " \n ", okQ "x", okQ "\t"⟩

def envC9b : Env :=
  ⟨fun _ => crawC9b, fun _ => false, fun _ => true, some ⟨"m"⟩, true⟩

/-- C9 witness: whitespace-only outputs are classified as absent — a
whitespace-only status exits with "no changes", and a whitespace-only
staged diff is treated as nothing staged. -/
theorem C9_fields_stripped_witness :
    capture crawC9a = Except.ok ⟨"", "", "", ""⟩ ∧
    (runCommit envC9a).outcome = Outcome.noChanges ∧
    capture crawC9b = Except.ok ⟨"M a.txt", "", "x", ""⟩ ∧
    (runCommit envC9b).outcome = Outcome.requiredStagingDeclined := by
  refine ⟨rfl, ?_, rfl, ?_⟩
  · exact (C9_fields_stripped crawC9a ⟨"", "", "", ""⟩ rfl).2.2.2.2.1
      envC9a rfl rfl
  · exact ((C9_fields_stripped crawC9b ⟨"M a.txt", "", "x", ""⟩
      rfl).2.2.2.2.2 envC9b rfl (by decide) rfl rfl rfl).1

def crawC1a : CaptureRaw :=
  ⟨okQ " M a.txt", okQ "", okQ "diff --git a/a.txt b/a.txt", okQ ""⟩

def crawC1b : CaptureRaw :=
  ⟨okQ "M  a.txt", okQ "diff --git a/a.txt b/a.txt", okQ "", okQ ""⟩

def envC1 : Env :=
  ⟨fun k => if k = 0 then crawC1a else crawC1b, fun _ => true, fun _ => true,
    some ⟨"fix(a): update a"⟩, true⟩

/-- C1 counterexample: the recaptured snapshot after the accepted required
`git add -u` has an *empty* unstaged diff, yet the workflow still proposes
(and runs) `git add -u` a second time — the proposal is driven by the
`has_unstaged` boolean computed from the snapshot taken *before* the
staging action, refuting the claim that staging decisions are derived
solely from the most recently captured snapshot. -/
theorem C1_stale_boolean_counterexample :
    capture (envC1.captures 1) =
      Except.ok ⟨"M  a.txt", "diff --git a/a.txt b/a.txt", "", ""⟩ ∧
    (runCommit envC1).confirms =
      [modifiedRequiredText, unstagedOptionalText, commitConfirmText] ∧
    (runCommit envC1).stagingRuns =
      [["git", "add", "-u"], ["git", "add", "-u"]] :=
  ⟨rfl, rfl, rfl⟩

/-- C1 amended: `hasStaged` is re-read from each capture, but
`hasUnstagedTracked` (and `hasUntracked`) are computed once from the
initial snapshot and survive recaptures: after an accepted required
staging action and a successful recapture with non-empty staged diff, the
`git add -u` proposal is made whenever the *initial* snapshot had unstaged
changes, irrespective of the recaptured snapshot's unstaged diff. -/
theorem C1_unstaged_from_initial_snapshot (env : Env) (s0 s1 : Snapshot)
    (h0 : capture (env.captures 0) = Except.ok s0) (hst : ¬s0.status = "")
    (hd0 : s0.diff = "") (hu0 : pyStrip s0.untracked = "")
    (hun : ¬pyStrip s0.unstaged = "")
    (ha : env.answers 0 = true) (hsr : env.stageResults 0 = true)
    (h1 : capture (env.captures 1) = Except.ok s1) (hd1 : ¬s1.diff = "") :
    unstagedOptionalText ∈ (runCommit env).confirms := by
  unfold runCommit
  rw [h0]
  dsimp only
  rw [if_neg hst, if_pos hd0]
  simp only [hu0, hun, ne_eq, not_true_eq_false, decide_False,
    Bool.false_eq_true, if_false, ha, hsr, if_true, not_false_eq_true,
    decide_True]
  unfold afterRequired
  rw [h1]
  dsimp only
  rw [if_neg hd1]
  exact unstagedPhase_confirm_mem env 1 1 2 _ _ _ _

/-- C1 witness for the amended statement, at the same concrete run as the
counterexample: the initial snapshot's unstaged diff is non-empty, so the
second `git add -u` proposal appears. -/
theorem C1_unstaged_from_initial_snapshot_witness :
    capture (envC1.captures 0) =
      Except.ok ⟨"M a.txt", "", "diff --git a/a.txt b/a.txt", ""⟩ ∧
    unstagedOptionalText ∈ (runCommit envC1).confirms :=
  ⟨rfl, C1_unstaged_from_initial_snapshot envC1
    ⟨"M a.txt", "", "diff --git a/a.txt b/a.txt", ""⟩
    ⟨"M  a.txt", "diff --git a/a.txt b/a.txt", "", ""⟩
    rfl (by decide) rfl rfl (by decide) rfl rfl rfl (by decide)⟩
